import Mathlib

/-!
Shallow embedding of the NTP synchronization tool (the v0.3 revision, which the
other revisions in the repository approximate). C doubles are embedded as exact
rationals; machine integers are Nat/Int with explicit reduction modulo powers of
two where the C code wraps. Network and clock effects are abstracted into an
environment record of oracles; the control flow of the program is embedded as
pure functions producing an event trace.
-/

/-- Error codes, mirroring the C enumeration ntp_error_t. -/
inductive NtpError
  | success
  | dnsFailed
  | socketCreate
  | sendFailed
  | recvTimeout
  | invalidResponse
  | invalidStratum
  | setTimeFailed
  | permissionDenied
  | invalidHostname
deriving DecidableEq, Repr

/-- Result record, mirroring the C struct ntp_result. -/
structure NtpResult where
  corrected_time : ℚ
  delay : ℚ
  error : NtpError
deriving DecidableEq, Repr

/-- Wire packet, mirroring the C struct ntp_packet. Each field holds the
host-order numeric value of the corresponding wire field, so the byte-order
conversion ntohl is the identity in this representation. Fields the validator
and the exchange never read (poll, precision, root delay, root dispersion,
reference id, reference timestamp) are kept for structural fidelity. -/
structure NtpPacket where
  li_vn_mode : ℕ
  stratum : ℕ
  poll : ℕ
  precision : ℕ
  root_delay : ℕ
  root_dispersion : ℕ
  reference_id : ℕ
  ref_ts_sec : ℕ
  ref_ts_frac : ℕ
  orig_ts_sec : ℕ
  orig_ts_frac : ℕ
  recv_ts_sec : ℕ
  recv_ts_frac : ℕ
  trans_ts_sec : ℕ
  trans_ts_frac : ℕ
deriving DecidableEq, Repr

def NTP_TIMESTAMP_DELTA : ℕ := 2208988800

def MAX_VALID_STRATUM : ℕ := 15

def MAX_HOSTNAME_LEN : ℕ := 255

def MAX_SAMPLES : ℕ := 5

/-- The built-in server pool INTERNAL_NTP_SERVERS. -/
def INTERNAL_NTP_SERVERS : List String :=
  ["ntp.aliyun.com", "time.cloudflare.com", "pool.ntp.org"]

/-- C conversion of a uint32 value to int (two-s complement reinterpretation,
the behaviour of the compilers the program targets). -/
def toInt32 (n : ℕ) : ℤ :=
  if (n : ℤ) % 4294967296 < 2147483648 then (n : ℤ) % 4294967296
  else (n : ℤ) % 4294967296 - 4294967296

/-- Wrap of an int expression into the 32-bit signed range (two-s complement
overflow behaviour of the target compilers). -/
def wrap32 (x : ℤ) : ℤ :=
  (x + 2147483648) % 4294967296 - 2147483648

/-- C abs on int: at INT_MIN the library abs of the target platforms returns
INT_MIN itself (the mathematical value is not representable). -/
def cAbs (x : ℤ) : ℤ :=
  if x = -2147483648 then -2147483648 else (x.natAbs : ℤ)

/-- Hostname syntax check, mirroring validate_hostname: length 1..255 and
every character a letter, digit, dot or hyphen. The C code walks the bytes of
a NUL-terminated string; we model the string as its character sequence, which
agrees on the ASCII-only strings the check can ever accept. -/
def validate_hostname (s : String) : Bool :=
  if s.data.length = 0 ∨ s.data.length > MAX_HOSTNAME_LEN then false
  else s.data.all (fun c =>
    decide (('a' ≤ c ∧ c ≤ 'z') ∨
     ('A' ≤ c ∧ c ≤ 'Z') ∨
     ('0' ≤ c ∧ c ≤ '9') ∨
     c = '.' ∨ c = '-'))

/-- Response validation, mirroring validate_ntp_response. The sent_frac
argument is received but, as in the C code, never used by any check. The
origin-timestamp comparison reproduces the C expression
abs((int)resp_orig_sec - (int)sent_sec) with its 32-bit signed semantics. -/
def validate_ntp_response (p : NtpPacket) (sent_sec _sent_frac : ℕ) : Bool :=
  let mode := p.li_vn_mode % 8
  if mode ≠ 4 ∧ mode ≠ 5 then false
  else if p.stratum = 0 then false
  else if p.stratum > MAX_VALID_STRATUM then false
  else if cAbs (wrap32 (toInt32 p.orig_ts_sec - toInt32 sent_sec)) > 1 then false
  else if p.trans_ts_sec = 0 then false
  else true

/-- Encoding of the integer-seconds half of an NTP timestamp from a time value
in seconds since the Unix epoch, mirroring
t1_sec = (uint32_t)t1 + NTP_TIMESTAMP_DELTA (the addition is performed in
unsigned arithmetic and stored in a uint32). -/
def encodeSec (t : ℚ) : ℕ :=
  ((⌊t⌋).toNat + NTP_TIMESTAMP_DELTA) % 4294967296

/-- Encoding of the fraction half, mirroring
t1_frac = (uint32_t)((t1 - (uint32_t)t1) * 4294967296.0). -/
def encodeFrac (t : ℚ) : ℕ :=
  (⌊(t - ((⌊t⌋).toNat : ℚ)) * 4294967296⌋).toNat % 4294967296

/-- Decoding of an NTP timestamp pair to seconds since the Unix epoch,
mirroring (double)(sec - NTP_TIMESTAMP_DELTA) + (double)frac / 4294967296.0,
where the subtraction is performed in unsigned 64-bit arithmetic because
NTP_TIMESTAMP_DELTA is an unsigned long long constant. -/
def decodeTs (sec frac : ℕ) : ℚ :=
  (((sec + 18446744073709551616 - NTP_TIMESTAMP_DELTA) % 18446744073709551616 : ℕ) : ℚ)
    + (frac : ℚ) / 4294967296

/-- Round-trip delay formula of query_ntp_server. -/
def delayOf (t1 t2 t3 t4 : ℚ) : ℚ :=
  (t4 - t1) - (t3 - t2)

/-- Corrected-time formula of query_ntp_server. -/
def correctedOf (t1 t2 t3 t4 : ℚ) : ℚ :=
  t3 + (delayOf t1 t2 t3 t4) / 2

/-- Post-receive processing of one exchange, mirroring query_ntp_server from
the validation call to the result computation: a rejected response yields the
initial zero times with error INVALID_RESPONSE; an accepted one decodes T2 and
T3 and applies the delay and corrected-time formulas. -/
def processResponse (p : NtpPacket) (t1_sec t1_frac : ℕ) (t1 t4 : ℚ) : NtpResult :=
  if validate_ntp_response p t1_sec t1_frac = false then
    ⟨0, 0, NtpError.invalidResponse⟩
  else
    let t2 := decodeTs p.recv_ts_sec p.recv_ts_frac
    let t3 := decodeTs p.trans_ts_sec p.trans_ts_frac
    ⟨correctedOf t1 t2 t3 t4, delayOf t1 t2 t3 t4, NtpError.success⟩

/-- The accumulation step of the sampling loop of sync_with_server_multi_sample:
running sums of corrected time and delay over the successful samples, plus the
success counter. -/
def sampleStep (a : ℚ × ℚ × ℕ) (r : NtpResult) : ℚ × ℚ × ℕ :=
  if r.error = NtpError.success then (a.1 + r.corrected_time, a.2.1 + r.delay, a.2.2 + 1)
  else a

/-- Multi-sample aggregation, mirroring sync_with_server_multi_sample on the
sequence of per-sample exchange outcomes: if no sample succeeded the initial
result with error RECV_TIMEOUT is returned, otherwise the averages; the two
counters carried alongside are the success count and the attempt count that
the function reports. -/
def sync_with_server_multi_sample (rs : List NtpResult) : NtpResult × ℕ × ℕ :=
  let acc := rs.foldl sampleStep (0, 0, 0)
  if acc.2.2 = 0 then (⟨0, 0, NtpError.recvTimeout⟩, 0, rs.length)
  else (⟨acc.1 / (acc.2.2 : ℚ), acc.2.1 / (acc.2.2 : ℚ), NtpError.success⟩, acc.2.2, rs.length)

/-- Number of successful samples in a sample sequence. -/
def countSucc (rs : List NtpResult) : ℕ :=
  (rs.filter (fun r => r.error = NtpError.success)).length

/-- Unweighted arithmetic mean of a list of rationals. -/
def mean (l : List ℚ) : ℚ := l.sum / (l.length : ℚ)

/-- Observable events of a run: one server attempt (DNS resolution, socket
traffic and sampling against one hostname), one invocation of the
clock-setting primitive, and one error report printed to the user. -/
inductive Event
  | query (host : String)
  | set (t : ℚ)
  | report (e : NtpError)
deriving DecidableEq, Repr

/-- Environment of a run: for each hostname the sequence of per-sample exchange
outcomes the network yields, and for each time value the outcome of the
platform clock-setting primitive set_system_time_platform. -/
structure Env where
  exchange : String → List NtpResult
  setTime : ℚ → NtpError

/-- One host attempt of the run: multi-sample aggregation over the outcomes the
environment yields for that host. -/
def syncMulti (env : Env) (h : String) : NtpResult :=
  (sync_with_server_multi_sample (env.exchange h)).1

/-- Stage 2 of main: walk the built-in pool in order; on an aggregate success
invoke the clock setter, stop on a successful set, otherwise report the set
error and continue with the next entry. Returns the overall success flag and
the event trace. -/
def stage2 (env : Env) : List String → Bool × List Event
  | [] => (false, [])
  | h :: rest =>
      let r := syncMulti env h
      if r.error = NtpError.success then
        let se := env.setTime r.corrected_time
        if se = NtpError.success then
          (true, [Event.query h, Event.set r.corrected_time])
        else
          let p := stage2 env rest
          (p.1, Event.query h :: Event.set r.corrected_time :: Event.report se :: p.2)
      else
        let p := stage2 env rest
        (p.1, Event.query h :: p.2)

/-- The orchestration of main after argument parsing: Stage 1 validates and
tries the user host when present (an invalid hostname is fatal before any
network event), Stage 2 walks the built-in pool whenever no successful clock
set has happened yet. Returns the process exit code and the event trace. -/
def mainRun (env : Env) (custom : Option String) : ℕ × List Event :=
  match custom with
  | none =>
      let p := stage2 env INTERNAL_NTP_SERVERS
      (if p.1 then 0 else 1, p.2)
  | some h =>
      if validate_hostname h = false then
        (1, [Event.report NtpError.invalidHostname])
      else
        let r := syncMulti env h
        if r.error = NtpError.success then
          let se := env.setTime r.corrected_time
          if se = NtpError.success then
            (0, [Event.query h, Event.set r.corrected_time])
          else
            let p := stage2 env INTERNAL_NTP_SERVERS
            (if p.1 then 0 else 1,
             Event.query h :: Event.set r.corrected_time :: Event.report se :: p.2)
        else
          let p := stage2 env INTERNAL_NTP_SERVERS
          (if p.1 then 0 else 1, Event.query h :: p.2)

/-- Recognizer for clock-setting events in a trace. -/
def isSet : Event → Bool
  | Event.set _ => true
  | _ => false

/-- Concrete environment: every exchange succeeds with corrected time 100 and
delay 1/100, and every clock-set attempt is denied for lack of privilege. -/
def envC1 : Env :=
  { exchange := fun _ => [⟨100, 1/100, NtpError.success⟩],
    setTime := fun _ => NtpError.permissionDenied }

/-- Concrete environment: every exchange times out. -/
def envFail : Env :=
  { exchange := fun _ => [⟨0, 0, NtpError.recvTimeout⟩],
    setTime := fun _ => NtpError.success }

/-- Concrete environment with no network activity at all. -/
def env0 : Env :=
  { exchange := fun _ => [], setTime := fun _ => NtpError.success }

/-- Concrete server response with mode 4 and stratum 16, echoing origin
second 5 and carrying a non-zero transmit timestamp. -/
def pC2 : NtpPacket := ⟨28, 16, 0, 0, 0, 0, 0, 0, 0, 5, 0, 0, 0, 1, 0⟩

/-- Concrete server response with mode 4 and stratum 1 whose echoed origin
second is 4294967295 while the client sent second 0. -/
def pC3 : NtpPacket := ⟨28, 1, 0, 0, 0, 0, 0, 0, 0, 4294967295, 0, 0, 0, 1, 0⟩

/-- Concrete valid server response echoing origin second 5, with server
receive and transmit timestamps both decoding to 10 seconds past the epoch. -/
def pC5 : NtpPacket := ⟨28, 1, 0, 0, 0, 0, 0, 0, 0, 5, 0, 2208988810, 0, 2208988810, 0⟩

/-- Concrete sample sequence: corrected times 100, 100.1 with delays 0.01,
0.02 on the successful first and third samples; the second sample timed out. -/
def rsC6 : List NtpResult :=
  [⟨100, 1/100, NtpError.success⟩,
   ⟨1002/10, 3/100, NtpError.recvTimeout⟩,
   ⟨1001/10, 1/50, NtpError.success⟩]

/-! Helper lemmas about the aggregation loop and the fallback walk. -/

lemma foldl_sampleStep (rs : List NtpResult) (a : ℚ × ℚ × ℕ) :
    rs.foldl sampleStep a =
      (a.1 + ((rs.filter (fun r => r.error = NtpError.success)).map NtpResult.corrected_time).sum,
       a.2.1 + ((rs.filter (fun r => r.error = NtpError.success)).map NtpResult.delay).sum,
       a.2.2 + countSucc rs) := by
  induction rs generalizing a with
  | nil => simp [countSucc]
  | cons r rs ih =>
      by_cases h : r.error = NtpError.success
      · simp only [List.foldl_cons, sampleStep, h, if_true, ih, countSucc,
          List.filter_cons, decide_eq_true_eq, if_pos h, List.map_cons,
          List.sum_cons, List.length_cons, Prod.mk.injEq]
        refine ⟨by ring, by ring, by omega⟩
      · simp only [List.foldl_cons, sampleStep, h, if_false, ih, countSucc,
          List.filter_cons, decide_eq_true_eq, List.map_cons, List.sum_cons]

lemma countSucc_eq_zero (rs : List NtpResult)
    (hf : ∀ r ∈ rs, r.error ≠ NtpError.success) : countSucc rs = 0 := by
  simp only [countSucc, List.length_eq_zero, List.filter_eq_nil_iff]
  intro r hr
  simpa using hf r hr

lemma sync_all_fail (rs : List NtpResult)
    (hf : ∀ r ∈ rs, r.error ≠ NtpError.success) :
    sync_with_server_multi_sample rs = (⟨0, 0, NtpError.recvTimeout⟩, 0, rs.length) := by
  simp [sync_with_server_multi_sample, foldl_sampleStep, countSucc_eq_zero rs hf]

lemma stage2_all_fail (env : Env) (l : List String)
    (hf : ∀ s ∈ l, (syncMulti env s).error ≠ NtpError.success) :
    stage2 env l = (false, l.map Event.query) := by
  induction l with
  | nil => simp [stage2]
  | cons h rest ih =>
      have hh := hf h (by simp)
      simp only [stage2, if_neg hh, List.map_cons]
      rw [ih (fun s hs => hf s (by simp [hs]))]

lemma stage2_cons_query (env : Env) (h : String) (rest : List String) :
    ∃ tl, (stage2 env (h :: rest)).2 = Event.query h :: tl := by
  by_cases h1 : (syncMulti env h).error = NtpError.success
  · by_cases h2 : env.setTime (syncMulti env h).corrected_time = NtpError.success
    · exact ⟨[Event.set (syncMulti env h).corrected_time], by simp [stage2, h1, h2]⟩
    · exact ⟨Event.set (syncMulti env h).corrected_time ::
        Event.report (env.setTime (syncMulti env h).corrected_time) :: (stage2 env rest).2,
        by simp [stage2, h1, h2]⟩
  · exact ⟨(stage2 env rest).2, by simp [stage2, h1]⟩

/-- C6: when at least one of the (at most five) samples succeeds, the
aggregate corrected time and delay are each the unweighted arithmetic mean of
the successful samples, and the reported counts are the success count and the
attempt count. -/
theorem c6_aggregate_is_unweighted_mean (rs : List NtpResult)
    (_hlen1 : 1 ≤ rs.length) (_hlen5 : rs.length ≤ MAX_SAMPLES)
    (hs : 0 < countSucc rs) :
    sync_with_server_multi_sample rs =
      (⟨mean ((rs.filter (fun r => r.error = NtpError.success)).map NtpResult.corrected_time),
        mean ((rs.filter (fun r => r.error = NtpError.success)).map NtpResult.delay),
        NtpError.success⟩,
       countSucc rs, rs.length) := by
  have hne : countSucc rs ≠ 0 := Nat.pos_iff_ne_zero.mp hs
  simp only [sync_with_server_multi_sample, foldl_sampleStep, zero_add, hne, if_false, mean]
  have hlc : ((rs.filter (fun r => r.error = NtpError.success)).map
      NtpResult.corrected_time).length = countSucc rs := by
    simp [countSucc]
  have hld : ((rs.filter (fun r => r.error = NtpError.success)).map
      NtpResult.delay).length = countSucc rs := by
    simp [countSucc]
  rw [hlc, hld]

/-- C6 witness: on the sample sequence of the specification example (corrected
times 100, 100.2, 100.1; delays 0.01, 0.03, 0.02; second sample failed) the
aggregate is corrected time 100.05 and delay 0.015 with 2 successes out of
3 attempts. -/
theorem c6_aggregate_is_unweighted_mean_witness :
    1 ≤ rsC6.length ∧ rsC6.length ≤ MAX_SAMPLES ∧ 0 < countSucc rsC6 ∧
    sync_with_server_multi_sample rsC6 =
      (⟨mean ((rsC6.filter (fun r => r.error = NtpError.success)).map NtpResult.corrected_time),
        mean ((rsC6.filter (fun r => r.error = NtpError.success)).map NtpResult.delay),
        NtpError.success⟩,
       countSucc rsC6, rsC6.length) ∧
    sync_with_server_multi_sample rsC6 = (⟨2001/20, 3/200, NtpError.success⟩, 2, 3) :=
  ⟨by decide, by decide, by decide,
   c6_aggregate_is_unweighted_mean rsC6 (by decide) (by decide) (by decide),
   by simp [sync_with_server_multi_sample, rsC6, List.foldl, sampleStep]; norm_num⟩

/-- C9: whenever zero samples succeed, the aggregate is the fixed initial
result with error RECV_TIMEOUT, regardless of the per-sample failure causes. -/
theorem c9_all_failed_reports_recvTimeout (rs : List NtpResult)
    (hf : ∀ r ∈ rs, r.error ≠ NtpError.success) :
    (sync_with_server_multi_sample rs).1 = ⟨0, 0, NtpError.recvTimeout⟩ := by
  rw [sync_all_fail rs hf]

/-- C9 witness: a run whose two samples both failed with DNS_FAILED still
yields the aggregate error RECV_TIMEOUT. -/
theorem c9_all_failed_reports_recvTimeout_witness :
    (∀ r ∈ [(⟨0, 0, NtpError.dnsFailed⟩ : NtpResult), ⟨0, 0, NtpError.dnsFailed⟩],
       r.error ≠ NtpError.success) ∧
    (sync_with_server_multi_sample
       [(⟨0, 0, NtpError.dnsFailed⟩ : NtpResult), ⟨0, 0, NtpError.dnsFailed⟩]).1 =
      ⟨0, 0, NtpError.recvTimeout⟩ :=
  ⟨by decide,
   c9_all_failed_reports_recvTimeout
     [⟨0, 0, NtpError.dnsFailed⟩, ⟨0, 0, NtpError.dnsFailed⟩] (by decide)⟩

/-- C5: on every accepted response the exchange returns the round-trip delay
(T4 - T1) - (T3 - T2) and the corrected time T3 + delay / 2 computed from the
decoded server receive and transmit timestamps T2 and T3, and on the example
timestamps T1 = 0, T2 = 10, T3 = 10.1, T4 = 0.2 the two formulas give delay
0.1 and corrected time 10.15. -/
theorem c5_offset_formula :
    (∀ (p : NtpPacket) (s f : ℕ) (t1 t4 : ℚ),
       validate_ntp_response p s f = true →
       (processResponse p s f t1 t4).delay =
         (t4 - t1) -
           (decodeTs p.trans_ts_sec p.trans_ts_frac - decodeTs p.recv_ts_sec p.recv_ts_frac) ∧
       (processResponse p s f t1 t4).corrected_time =
         decodeTs p.trans_ts_sec p.trans_ts_frac +
           ((t4 - t1) -
            (decodeTs p.trans_ts_sec p.trans_ts_frac - decodeTs p.recv_ts_sec p.recv_ts_frac)) / 2 ∧
       (processResponse p s f t1 t4).error = NtpError.success) ∧
    delayOf 0 10 (101/10) (1/5) = 1/10 ∧
    correctedOf 0 10 (101/10) (1/5) = 203/20 := by
  refine ⟨?_, by norm_num [delayOf], by norm_num [correctedOf, delayOf]⟩
  intro p s f t1 t4 hv
  simp [processResponse, hv, delayOf, correctedOf]

/-- C5 witness: the formulas instantiated on a concrete accepted response
whose decoded receive and transmit timestamps are both 10, with T1 = 0 and
T4 = 0.2. -/
theorem c5_offset_formula_witness :
    validate_ntp_response pC5 5 0 = true ∧
    (processResponse pC5 5 0 0 (1/5)).delay =
      ((1/5 : ℚ) - 0) -
        (decodeTs pC5.trans_ts_sec pC5.trans_ts_frac - decodeTs pC5.recv_ts_sec pC5.recv_ts_frac) ∧
    (processResponse pC5 5 0 0 (1/5)).corrected_time =
      decodeTs pC5.trans_ts_sec pC5.trans_ts_frac +
        (((1/5 : ℚ) - 0) -
         (decodeTs pC5.trans_ts_sec pC5.trans_ts_frac - decodeTs pC5.recv_ts_sec pC5.recv_ts_frac)) / 2 ∧
    (processResponse pC5 5 0 0 (1/5)).error = NtpError.success :=
  ⟨by decide, c5_offset_formula.1 pC5 5 0 0 (1/5) (by decide)⟩

/-- C7: a syntactically invalid user hostname makes the run fail with exit
code 1 after reporting INVALID_HOSTNAME only, with no server attempt, no
network event and no clock-set event, in every environment. -/
theorem c7_invalid_hostname_is_fatal (env : Env) (h : String)
    (hv : validate_hostname h = false) :
    mainRun env (some h) = (1, [Event.report NtpError.invalidHostname]) := by
  simp [mainRun, hv]

/-- C7 witness: a user host containing a slash is rejected with exit code 1
and an event trace holding nothing but the INVALID_HOSTNAME report. -/
theorem c7_invalid_hostname_is_fatal_witness :
    validate_hostname "time/evil" = false ∧
    mainRun env0 (some "time/evil") = (1, [Event.report NtpError.invalidHostname]) :=
  ⟨by decide, c7_invalid_hostname_is_fatal env0 "time/evil" (by decide)⟩

lemma char_class_iff (c : Char) :
    (('a' ≤ c ∧ c ≤ 'z') ∨ ('A' ≤ c ∧ c ≤ 'Z') ∨ ('0' ≤ c ∧ c ≤ '9') ∨ c = '.' ∨ c = '-') ↔
    (c.isAlpha = true ∨ c.isDigit = true ∨ c = '.' ∨ c = '-') := by
  simp only [Char.isAlpha, Char.isUpper, Char.isLower, Char.isDigit, Bool.or_eq_true,
    Bool.and_eq_true, decide_eq_true_eq, Char.le_def]
  constructor
  · rintro (⟨h1, h2⟩ | ⟨h1, h2⟩ | ⟨h1, h2⟩ | h | h) <;> simp_all [Char.le_def]
  · rintro ((⟨h1, h2⟩ | ⟨h1, h2⟩) | ⟨h1, h2⟩ | h | h) <;> simp_all [Char.le_def]

/-- C10: the hostname validator accepts exactly the strings of length 1..255
all of whose characters are ASCII letters, digits, dots or hyphens, with no
structural constraint; in particular a lone hyphen, a string of dots only and
a string of digits only are accepted. -/
theorem c10_hostname_check_is_length_and_charset :
    (∀ s : String, validate_hostname s = true ↔
       (1 ≤ s.data.length ∧ s.data.length ≤ 255 ∧
        ∀ c ∈ s.data, (c.isAlpha = true ∨ c.isDigit = true ∨ c = '.' ∨ c = '-'))) ∧
    validate_hostname "-" = true ∧
    validate_hostname "..." = true ∧
    validate_hostname "0123456789" = true := by
  refine ⟨?_, by decide, by decide, by decide⟩
  intro s
  unfold validate_hostname
  split_ifs with h
  · simp only [MAX_HOSTNAME_LEN] at h
    constructor
    · intro hh; exact absurd hh (by simp)
    · rintro ⟨h1, h2, _⟩; omega
  · simp only [MAX_HOSTNAME_LEN] at h
    push_neg at h
    rw [List.all_eq_true]
    constructor
    · intro hall
      refine ⟨by omega, by omega, ?_⟩
      intro c hc
      have hcc := hall c hc
      rw [decide_eq_true_eq] at hcc
      exact (char_class_iff c).mp hcc
    · rintro ⟨_, _, h3⟩
      intro c hc
      rw [decide_eq_true_eq]
      exact (char_class_iff c).mpr (h3 c hc)

/-- C1 counterexample: in a run where the user-server query succeeds but
applying the corrected time is denied for lack of privilege, the program does
not stop: the event trace goes on to query the first built-in pool entry. -/
theorem c1_perm_denied_counterexample :
    (syncMulti envC1 "a").error = NtpError.success ∧
    envC1.setTime (syncMulti envC1 "a").corrected_time = NtpError.permissionDenied ∧
    Event.query "ntp.aliyun.com" ∈ (mainRun envC1 (some "a")).2 ∧
    Event.query "time.cloudflare.com" ∈ (mainRun envC1 (some "a")).2 ∧
    Event.query "pool.ntp.org" ∈ (mainRun envC1 (some "a")).2 := by
  refine ⟨by decide, by decide, by decide, by decide, by decide⟩

/-- C1 amended: when the Stage 1 query succeeds but applying the corrected
time fails with PERMISSION_DENIED, the run reports the permission failure and
then continues with the built-in pool, querying its first entry, instead of
terminating. -/
theorem c1_perm_denied_continues_with_pool (env : Env) (h : String)
    (hv : validate_hostname h = true)
    (hs : (syncMulti env h).error = NtpError.success)
    (hp : env.setTime (syncMulti env h).corrected_time = NtpError.permissionDenied) :
    ∃ rest, (mainRun env (some h)).2 =
      Event.query h :: Event.set (syncMulti env h).corrected_time ::
      Event.report NtpError.permissionDenied :: Event.query "ntp.aliyun.com" :: rest := by
  obtain ⟨tl, htl⟩ := stage2_cons_query env "ntp.aliyun.com" ["time.cloudflare.com", "pool.ntp.org"]
  refine ⟨tl, ?_⟩
  have hp2 : env.setTime (syncMulti env h).corrected_time ≠ NtpError.success := by
    rw [hp]; decide
  simp only [mainRun, hv, Bool.true_eq_false, if_false, hs, if_true, if_neg hp2, hp]
  rw [show INTERNAL_NTP_SERVERS =
    "ntp.aliyun.com" :: ["time.cloudflare.com", "pool.ntp.org"] from rfl, htl]
  simp

/-- C1 amended witness: in the concrete all-denied environment the trace after
the permission report continues with the first pool entry. -/
theorem c1_perm_denied_continues_with_pool_witness :
    validate_hostname "a" = true ∧
    (syncMulti envC1 "a").error = NtpError.success ∧
    envC1.setTime (syncMulti envC1 "a").corrected_time = NtpError.permissionDenied ∧
    (∃ rest, (mainRun envC1 (some "a")).2 =
      Event.query "a" :: Event.set (syncMulti envC1 "a").corrected_time ::
      Event.report NtpError.permissionDenied :: Event.query "ntp.aliyun.com" :: rest) :=
  ⟨by decide, by decide, by decide,
   c1_perm_denied_continues_with_pool envC1 "a" (by decide) (by decide) (by decide)⟩

/-- C2 counterexample: a response whose only failing criterion is its stratum
(16, out of range) is reported by the exchange as the generic INVALID_RESPONSE,
not as INVALID_STRATUM; the same packet with an in-range stratum is accepted. -/
theorem c2_stratum_cause_counterexample :
    validate_ntp_response pC2 5 0 = false ∧
    validate_ntp_response { pC2 with stratum := 2 } 5 0 = true ∧
    (processResponse pC2 5 0 0 0).error = NtpError.invalidResponse ∧
    NtpError.invalidResponse ≠ NtpError.invalidStratum := by
  refine ⟨by decide, by decide, by decide, by decide⟩

/-- C2 amended: every response the validator rejects is reported by the
exchange with the single generic error INVALID_RESPONSE, whatever the failing
criterion; INVALID_STRATUM is never produced, so the rejection causes are not
distinguishable from the returned error. -/
theorem c2_rejection_always_invalidResponse (p : NtpPacket) (s f : ℕ) (t1 t4 : ℚ)
    (hr : validate_ntp_response p s f = false) :
    (processResponse p s f t1 t4).error = NtpError.invalidResponse := by
  simp [processResponse, hr]

/-- C2 amended witness: instantiation on the concrete stratum-16 response. -/
theorem c2_rejection_always_invalidResponse_witness :
    validate_ntp_response pC2 5 0 = false ∧
    (processResponse pC2 5 0 0 0).error = NtpError.invalidResponse :=
  ⟨by decide, c2_rejection_always_invalidResponse pC2 5 0 0 0 (by decide)⟩

/-- C8: when the user host (if any) and every built-in pool entry fail to
produce a successful aggregate, the exit code is 1 and the clock setter is
never invoked. -/
theorem c8_total_failure_no_clock_set (env : Env) (custom : Option String)
    (hc : ∀ h, custom = some h → ∀ r ∈ env.exchange h, r.error ≠ NtpError.success)
    (hp : ∀ s ∈ INTERNAL_NTP_SERVERS, ∀ r ∈ env.exchange s, r.error ≠ NtpError.success) :
    (mainRun env custom).1 = 1 ∧
    (mainRun env custom).2.all (fun e => !(isSet e)) = true := by
  have hpool0 : stage2 env INTERNAL_NTP_SERVERS =
      (false, INTERNAL_NTP_SERVERS.map Event.query) := by
    refine stage2_all_fail env INTERNAL_NTP_SERVERS ?_
    intro s hs
    have := sync_all_fail (env.exchange s) (hp s hs)
    simp [syncMulti, this]
  have hpool : stage2 env ["ntp.aliyun.com", "time.cloudflare.com", "pool.ntp.org"] =
      (false, [Event.query "ntp.aliyun.com", Event.query "time.cloudflare.com",
               Event.query "pool.ntp.org"]) := by
    rw [show ("ntp.aliyun.com" :: ["time.cloudflare.com", "pool.ntp.org"]) =
      INTERNAL_NTP_SERVERS from rfl, hpool0]
    simp [INTERNAL_NTP_SERVERS]
  match custom with
  | none =>
      simp [mainRun, hpool, INTERNAL_NTP_SERVERS, isSet]
  | some h =>
      by_cases hv : validate_hostname h = true
      · have hfail : (syncMulti env h).error = NtpError.recvTimeout := by
          have := sync_all_fail (env.exchange h) (hc h rfl)
          simp [syncMulti, this]
        have hne : (syncMulti env h).error ≠ NtpError.success := by
          rw [hfail]; decide
        simp [mainRun, hv, hne, hpool, INTERNAL_NTP_SERVERS, isSet]
      · rw [Bool.not_eq_true] at hv
        simp [mainRun, hv, isSet]

/-- C8 witness: with every exchange timing out and no user host, the exit code
is 1 and the trace holds no clock-set event. -/
theorem c8_total_failure_no_clock_set_witness :
    (∀ s ∈ INTERNAL_NTP_SERVERS, ∀ r ∈ envFail.exchange s, r.error ≠ NtpError.success) ∧
    (mainRun envFail none).1 = 1 ∧
    (mainRun envFail none).2.all (fun e => !(isSet e)) = true :=
  ⟨by decide,
   c8_total_failure_no_clock_set envFail none (fun h hc => by cases hc) (by decide)⟩

lemma secdiff_char (a b : ℕ) (ha : a < 4294967296) (hb : b < 4294967296) :
    cAbs (wrap32 (toInt32 a - toInt32 b)) ≤ 1 ↔
      ((a + 4294967296 - b) % 4294967296 = 0 ∨
       (a + 4294967296 - b) % 4294967296 = 1 ∨
       (a + 4294967296 - b) % 4294967296 = 4294967295 ∨
       (a + 4294967296 - b) % 4294967296 = 2147483648) := by
  unfold cAbs wrap32 toInt32
  split_ifs <;> omega

lemma validate_true_iff (p : NtpPacket) (s f : ℕ) :
    validate_ntp_response p s f = true ↔
      ((p.li_vn_mode % 8 = 4 ∨ p.li_vn_mode % 8 = 5) ∧
       p.stratum ≠ 0 ∧ ¬ p.stratum > MAX_VALID_STRATUM ∧
       ¬ cAbs (wrap32 (toInt32 p.orig_ts_sec - toInt32 s)) > 1 ∧
       p.trans_ts_sec ≠ 0) := by
  unfold validate_ntp_response
  split_ifs with h1 h2 h3 h4 <;> simp_all

/-- C3 counterexample: the validator accepts a packet (mode 4, stratum 1,
non-zero transmit timestamp) whose echoed origin second 4294967295 differs
from the sent second 0 by far more than 1 in absolute value, because the
comparison is made on the signed 32-bit reinterpretation of the difference. -/
theorem c3_origin_wraparound_counterexample :
    validate_ntp_response pC3 0 0 = true ∧
    ((pC3.orig_ts_sec : ℤ) - (0 : ℤ)).natAbs > 1 := by
  refine ⟨by decide, by decide⟩

/-- C3 amended: the validator accepts exactly the packets with mode 4 or 5,
stratum in 1..15, non-zero transmit-timestamp second, and echoed origin second
congruent to the sent second plus 0, 1, -1 or 2147483648 modulo 2^32 — that
is, the origin criterion compares the two-s complement 32-bit difference, so
wraparound neighbours pass it and so does a difference of exactly 2^31, where
the C abs of INT_MIN is negative. -/
theorem c3_validator_characterization (p : NtpPacket) (s f : ℕ)
    (h1 : p.orig_ts_sec < 4294967296) (h2 : s < 4294967296) :
    validate_ntp_response p s f = true ↔
      ((p.li_vn_mode % 8 = 4 ∨ p.li_vn_mode % 8 = 5) ∧
       (1 ≤ p.stratum ∧ p.stratum ≤ 15) ∧
       ((p.orig_ts_sec + 4294967296 - s) % 4294967296 = 0 ∨
        (p.orig_ts_sec + 4294967296 - s) % 4294967296 = 1 ∨
        (p.orig_ts_sec + 4294967296 - s) % 4294967296 = 4294967295 ∨
        (p.orig_ts_sec + 4294967296 - s) % 4294967296 = 2147483648) ∧
       p.trans_ts_sec ≠ 0) := by
  rw [validate_true_iff]
  constructor
  · rintro ⟨hm, hs0, hs15, hd, ht⟩
    refine ⟨hm, by simp [MAX_VALID_STRATUM] at hs15; omega,
      (secdiff_char p.orig_ts_sec s h1 h2).mp (by omega), ht⟩
  · rintro ⟨hm, hs, hd, ht⟩
    refine ⟨hm, by omega, by simp [MAX_VALID_STRATUM]; omega,
      by have := (secdiff_char p.orig_ts_sec s h1 h2).mpr hd; omega, ht⟩

/-- C3 amended witness: the characterization instantiated on the wraparound
packet and sent second 0. -/
theorem c3_validator_characterization_witness :
    pC3.orig_ts_sec < 4294967296 ∧ (0 : ℕ) < 4294967296 ∧
    (validate_ntp_response pC3 0 0 = true ↔
      ((pC3.li_vn_mode % 8 = 4 ∨ pC3.li_vn_mode % 8 = 5) ∧
       (1 ≤ pC3.stratum ∧ pC3.stratum ≤ 15) ∧
       ((pC3.orig_ts_sec + 4294967296 - 0) % 4294967296 = 0 ∨
        (pC3.orig_ts_sec + 4294967296 - 0) % 4294967296 = 1 ∨
        (pC3.orig_ts_sec + 4294967296 - 0) % 4294967296 = 4294967295 ∨
        (pC3.orig_ts_sec + 4294967296 - 0) % 4294967296 = 2147483648) ∧
       pC3.trans_ts_sec ≠ 0)) :=
  ⟨by decide, by decide, c3_validator_characterization pC3 0 0 (by decide) (by decide)⟩

/-- C4: for every non-negative time value whose integer seconds fit the NTP
era (floor plus the 1900 epoch offset below 2^32), decoding the encoded wire
pair recovers the value within 2^-32 seconds. -/
theorem c4_codec_roundtrip (t : ℚ) (h0 : 0 ≤ t)
    (h1 : (⌊t⌋).toNat + NTP_TIMESTAMP_DELTA < 4294967296) :
    |decodeTs (encodeSec t) (encodeFrac t) - t| < 1 / 4294967296 := by
  have hn0 : (0 : ℤ) ≤ ⌊t⌋ := Int.floor_nonneg.mpr h0
  have hcast : (((⌊t⌋).toNat : ℕ) : ℚ) = ((⌊t⌋ : ℤ) : ℚ) := by
    exact_mod_cast congrArg (fun z => ((z : ℤ) : ℚ)) (Int.toNat_of_nonneg hn0)
  set f : ℚ := t - (((⌊t⌋).toNat : ℕ) : ℚ) with hfdef
  have hf0 : 0 ≤ f := by
    rw [hfdef, hcast]
    have := Int.floor_le t
    linarith
  have hf1 : f < 1 := by
    rw [hfdef, hcast]
    have := Int.lt_floor_add_one t
    linarith
  set k : ℤ := ⌊f * 4294967296⌋ with hkdef
  have hk0 : (0 : ℤ) ≤ k := Int.floor_nonneg.mpr (by positivity)
  have hmul : f * 4294967296 < 4294967296 := by
    have h2 := mul_lt_mul_of_pos_right hf1 (show (0 : ℚ) < 4294967296 by norm_num)
    simpa using h2
  have hklt : k < 4294967296 := by
    rw [hkdef]
    refine Int.floor_lt.mpr ?_
    exact_mod_cast hmul
  have hkle : (k : ℚ) ≤ f * 4294967296 := Int.floor_le _
  have hkgt : f * 4294967296 < (k : ℚ) + 1 := Int.lt_floor_add_one _
  have hesec : encodeSec t = (⌊t⌋).toNat + NTP_TIMESTAMP_DELTA := by
    unfold encodeSec
    exact Nat.mod_eq_of_lt h1
  have hefrac : encodeFrac t = k.toNat := by
    unfold encodeFrac
    rw [← hfdef, ← hkdef]
    apply Nat.mod_eq_of_lt
    omega
  have hktoNat : ((k.toNat : ℕ) : ℚ) = (k : ℚ) := by
    exact_mod_cast congrArg (fun z => ((z : ℤ) : ℚ)) (Int.toNat_of_nonneg hk0)
  have hnat : ((⌊t⌋).toNat + NTP_TIMESTAMP_DELTA + 18446744073709551616 -
      NTP_TIMESTAMP_DELTA) % 18446744073709551616 = (⌊t⌋).toNat := by
    simp only [NTP_TIMESTAMP_DELTA] at h1 ⊢
    omega
  have hdec : decodeTs (encodeSec t) (encodeFrac t) =
      (((⌊t⌋).toNat : ℕ) : ℚ) + (k : ℚ) / 4294967296 := by
    rw [hesec, hefrac]
    unfold decodeTs
    rw [hktoNat, hnat]
  rw [hdec]
  have hrw : (((⌊t⌋).toNat : ℕ) : ℚ) + (k : ℚ) / 4294967296 - t =
      (k : ℚ) / 4294967296 - f := by
    rw [hfdef]
    ring
  rw [hrw, abs_lt]
  constructor
  · linarith
  · linarith

/-- C4 witness: the round trip at the concrete time value 2.5 seconds. -/
theorem c4_codec_roundtrip_witness :
    (0 : ℚ) ≤ 5/2 ∧ (⌊(5/2 : ℚ)⌋).toNat + NTP_TIMESTAMP_DELTA < 4294967296 ∧
    |decodeTs (encodeSec (5/2)) (encodeFrac (5/2)) - 5/2| < 1 / 4294967296 :=
  ⟨by norm_num, by norm_num [NTP_TIMESTAMP_DELTA]; decide,
   c4_codec_roundtrip (5/2) (by norm_num) (by norm_num [NTP_TIMESTAMP_DELTA]; decide)⟩
